import Mathlib

/-!
Shallow embedding of the thread lifecycle component
(panda/src/pipeline/threadWin32Impl.cxx) and of the Transform2SG data node
(panda/src/tform/transform2sg.cxx).

Each C++ member function is translated into a pure Lean function on an
explicit state record.  Besides the updated state and the return value,
every lifecycle operation also yields the list of the observable events it
performs, in program order: mutex lock/unlock, reads and writes of the
lifecycle status field, reference-count adjustments, condition-variable
signals and waits, the OS thread-creation call, the priority hint, the
binding of the thread-local current-thread slot, and the invocation of
the user entry point thread_main.  Lock discipline and transition
ordering are stated over these traces.
-/

/-- The lifecycle status enumeration of ThreadWin32Impl. -/
inductive TStatus where
  | S_new
  | S_start_called
  | S_running
  | S_finished
deriving DecidableEq, Repr

/-- Position of a status in the forward sequence New, StartCalled, Running,
Finished. -/
def TStatus.idx : TStatus → Nat
  | TStatus.S_new => 0
  | TStatus.S_start_called => 1
  | TStatus.S_running => 2
  | TStatus.S_finished => 3

/-- The ThreadPriority enumeration passed to start. -/
inductive ThreadPriority where
  | TP_low
  | TP_normal
  | TP_high
  | TP_urgent
deriving DecidableEq, Repr

/-- Observable events of the lifecycle operations, in program order. -/
inductive Ev where
  | lock
  | unlock
  | readStatus (st : TStatus)
  | writeStatus (st : TStatus)
  | writeJoinable (b : Bool)
  | refUp
  | refDown
  | createThread
  | setPriority (p : ThreadPriority)
  | notifyCv
  | waitCv
  | bindSlot (t : Nat)
  | threadMain
deriving DecidableEq, Repr

/-- The mutable fields of a ThreadWin32Impl object, together with the
reference count of its parent LogicalThread.  OS handles and OS thread
identifiers are numbers, 0 meaning the null handle / the absent id. -/
structure ThreadState where
  status : TStatus
  joinable : Bool
  thread : Nat
  thread_id : Nat
  parentRef : Nat
deriving DecidableEq, Repr

/-- Modelled from the spec: the ThreadWin32Impl constructor lives in the
header, outside this excerpt.  Per the data model, the lifecycle state
starts at New with no OS handle or id assigned, and the constructing
context holds one reference on the parent LogicalThread. -/
def initThreadState : ThreadState :=
  { status := TStatus.S_new, joinable := false, thread := 0, thread_id := 0, parentRef := 1 }

/-- ThreadWin32Impl::setup_main_thread: unconditionally writes S_running
into the status field, with no locking. -/
def setup_main_thread (s : ThreadState) : ThreadState × List Ev :=
  ({ s with status := TStatus.S_running }, [Ev.writeStatus TStatus.S_running])

/-- ThreadWin32Impl::start.  The outcome of the CreateThread call is an
oracle: osHandle is the returned handle and osTid the thread id written
through the out parameter; the source detects failure by the id being 0.
Under the lock: the nassertd precondition check, then the writes of
_joinable and _status, the ref() on the parent, the CreateThread call,
and either the failure path (unref and return false) or the priority
hint and return true. -/
def start (pr : ThreadPriority) (j : Bool) (osHandle osTid : Nat) (s : ThreadState) :
    ThreadState × Bool × List Ev :=
  if s.status = TStatus.S_new ∧ s.thread = 0 then
    let s1 : ThreadState :=
      { s with joinable := j, status := TStatus.S_start_called,
               parentRef := s.parentRef + 1, thread := osHandle, thread_id := osTid }
    if s1.thread_id = 0 then
      ({ s1 with parentRef := s1.parentRef - 1 }, false,
       [Ev.lock, Ev.readStatus s.status, Ev.writeJoinable j,
        Ev.writeStatus TStatus.S_start_called, Ev.refUp, Ev.createThread,
        Ev.refDown, Ev.unlock])
    else
      (s1, true,
       [Ev.lock, Ev.readStatus s.status, Ev.writeJoinable j,
        Ev.writeStatus TStatus.S_start_called, Ev.refUp, Ev.createThread,
        Ev.setPriority pr, Ev.unlock])
  else
    (s, false, [Ev.lock, Ev.readStatus s.status, Ev.unlock])

/-- Outcome of a call to join. -/
inductive JoinOutcome where
  | assertFailed
  | completed (waits : Nat)
  | blockedForever
deriving DecidableEq, Repr

/-- The while loop of join: read the status; if it is not S_finished, wait
on the condition variable and read again.  The list obs is the sequence of
status values observed after each wakeup (written concurrently by the
worker).  Returns the number of waits performed before S_finished was
observed, or none if the observations run out first (the caller blocks),
together with the events of the loop. -/
def waitForFinished : TStatus → List TStatus → Option Nat × List Ev
  | TStatus.S_finished, _ => (some 0, [Ev.readStatus TStatus.S_finished])
  | st, [] => (none, [Ev.readStatus st, Ev.waitCv])
  | st, o :: rest =>
    let r := waitForFinished o rest
    (r.1.map Nat.succ, Ev.readStatus st :: Ev.waitCv :: r.2)

/-- ThreadWin32Impl::join: under the lock, the nassertd precondition check
(joinable and not S_new; on violation unlock and return), then the wait
loop until S_finished. -/
def join (s : ThreadState) (obs : List TStatus) : ThreadState × JoinOutcome × List Ev :=
  if s.joinable = true ∧ s.status ≠ TStatus.S_new then
    let r := waitForFinished s.status obs
    match r.1 with
    | some n =>
      (s, JoinOutcome.completed n, Ev.lock :: Ev.readStatus s.status :: r.2 ++ [Ev.unlock])
    | none =>
      (s, JoinOutcome.blockedForever, Ev.lock :: Ev.readStatus s.status :: r.2)
  else
    (s, JoinOutcome.assertFailed, [Ev.lock, Ev.readStatus s.status, Ev.unlock])

/-- State seen by the worker thread running root_func: the lifecycle
object plus the thread-local current-thread slot of the calling native
thread. -/
structure WorkerState where
  impl : ThreadState
  slot : Option Nat
deriving DecidableEq, Repr

/-- ThreadWin32Impl::root_func, with parentObj the identity of the parent
LogicalThread.  It binds the thread-local slot, then under the lock
asserts S_start_called (on violation unlock and return 1), writes
S_running, notifies; then runs thread_main (user code of the
LogicalThread, which does not touch the lifecycle fields); then under the
lock asserts S_running, writes S_finished, notifies; finally drops the
reference taken in start and returns 0. -/
def root_func (parentObj : Nat) (w : WorkerState) : WorkerState × Nat × List Ev :=
  let w1 : WorkerState := { w with slot := some parentObj }
  if w1.impl.status = TStatus.S_start_called then
    let w2 : WorkerState := { w1 with impl := { w1.impl with status := TStatus.S_running } }
    if w2.impl.status = TStatus.S_running then
      let w3 : WorkerState := { w2 with impl := { w2.impl with status := TStatus.S_finished } }
      let w4 : WorkerState := { w3 with impl := { w3.impl with parentRef := w3.impl.parentRef - 1 } }
      (w4, 0,
       [Ev.bindSlot parentObj, Ev.lock, Ev.readStatus TStatus.S_start_called,
        Ev.writeStatus TStatus.S_running, Ev.notifyCv, Ev.unlock, Ev.threadMain,
        Ev.lock, Ev.readStatus TStatus.S_running, Ev.writeStatus TStatus.S_finished,
        Ev.notifyCv, Ev.unlock, Ev.refDown])
    else
      (w2, 1,
       [Ev.bindSlot parentObj, Ev.lock, Ev.readStatus TStatus.S_start_called,
        Ev.writeStatus TStatus.S_running, Ev.notifyCv, Ev.unlock, Ev.threadMain,
        Ev.lock, Ev.readStatus w2.impl.status, Ev.unlock])
  else
    (w1, 1, [Ev.bindSlot parentObj, Ev.lock, Ev.readStatus w1.impl.status, Ev.unlock])

/-- Lock-discipline check over an event trace: tracks the mutex depth and
requires every read and write of the status field to happen at positive
depth. -/
def locksOk : Nat → List Ev → Bool
  | _, [] => true
  | d, Ev.lock :: r => locksOk (d + 1) r
  | d, Ev.unlock :: r => locksOk (d - 1) r
  | d, Ev.readStatus _ :: r => decide (0 < d) && locksOk d r
  | d, Ev.writeStatus _ :: r => decide (0 < d) && locksOk d r
  | d, _ :: r => locksOk d r

/-- One status write is forward and does not skip StartCalled: the new
value is not earlier in the sequence than the current one, and from New
the only permitted write targets are New and StartCalled. -/
def stepOk (cur nxt : TStatus) : Bool :=
  decide (cur.idx ≤ nxt.idx) && (decide (cur ≠ TStatus.S_new) || decide (nxt.idx ≤ 1))

/-- Checks every status write of a trace with stepOk, threading the
current status through. -/
def writesForward : TStatus → List Ev → Bool
  | _, [] => true
  | cur, Ev.writeStatus nxt :: r => stepOk cur nxt && writesForward nxt r
  | cur, _ :: r => writesForward cur r

/-- The current-thread registry of one native thread: its thread-local
_current_thread slot, plus the process-wide _main_thread_known flag.
LogicalThread identities are numbers. -/
structure Registry where
  slot : Option Nat
  mainKnown : Bool
deriving DecidableEq, Repr

/-- Observable events of the registry operations. -/
inductive RegEv where
  | readSlot
  | testAndSet (prev : Bool)
  | writeSlot (t : Nat)
  | assertUnregistered
deriving DecidableEq, Repr

/-- init_current_thread, with mainT the identity returned by
Thread::get_main_thread().  Re-reads the slot, test-and-sets the flag; if
the flag was previously unset, binds the slot to the main thread.  The
nassertr fires (returning the null thread) exactly when the resulting
thread pointer is still null. -/
def init_current_thread (mainT : Nat) (r : Registry) : Registry × Option Nat × List RegEv :=
  if r.mainKnown = false then
    ({ slot := some mainT, mainKnown := true }, some mainT,
     [RegEv.readSlot, RegEv.testAndSet false, RegEv.writeSlot mainT])
  else
    match r.slot with
    | none => (r, none, [RegEv.readSlot, RegEv.testAndSet true, RegEv.assertUnregistered])
    | some t => (r, some t, [RegEv.readSlot, RegEv.testAndSet true])

/-- ThreadWin32Impl::get_current_thread: return the slot if bound,
otherwise fall into init_current_thread. -/
def get_current_thread (mainT : Nat) (r : Registry) : Registry × Option Nat × List RegEv :=
  match r.slot with
  | some t => (r, some t, [RegEv.readSlot])
  | none =>
    let p := init_current_thread mainT r
    (p.1, p.2.1, RegEv.readSlot :: p.2.2)

/-- ThreadWin32Impl::bind_thread: if the slot is empty and the bound
thread is the main thread, test-and-set the flag; then overwrite the
slot.  The Bool result records whether the test-and-set was invoked. -/
def bind_thread (mainT t : Nat) (r : Registry) : Registry × Bool × List RegEv :=
  if r.slot = none ∧ t = mainT then
    ({ slot := some t, mainKnown := true }, true,
     [RegEv.readSlot, RegEv.testAndSet r.mainKnown, RegEv.writeSlot t])
  else
    ({ r with slot := some t }, false, [RegEv.readSlot, RegEv.writeSlot t])

/-- Value of a list of decimal digits, most significant first. -/
def decVal (l : List Nat) : Nat := l.foldl (fun a d => a * 10 + d) 0

/-- Decimal digits of a positive number, most significant first; empty
for 0. -/
def decDigitsAux : Nat → List Nat
  | 0 => []
  | n + 1 => decDigitsAux ((n + 1) / 10) ++ [(n + 1) % 10]
termination_by n => n
decreasing_by exact Nat.div_lt_self (Nat.succ_pos n) (by omega)

/-- Decimal digit string of a number as the ostream insertion operator
renders it: the digits of n, or the single digit 0 for n = 0. -/
def decRepr (n : Nat) : List Nat :=
  if n = 0 then [0] else decDigitsAux n

/-- ASCII character codes of the decimal rendering of n (digit d is code
48 + d). -/
def decCodes (n : Nat) : List Nat := (decRepr n).map (fun d => 48 + d)

/-- ThreadWin32Impl::get_unique_id: renders the process id, a dot
(ASCII 46), and the stored OS thread id into a string, modelled as the
list of its character codes.  The method is const: the state is returned
unchanged. -/
def get_unique_id (pid : Nat) (s : ThreadState) : ThreadState × List Nat :=
  (s, decCodes pid ++ 46 :: decCodes s.thread_id)

/-- Recovers the thread-id component of a unique-id string: drop
everything before the first dot, drop the dot, decode the digits. -/
def tidOfUid (l : List Nat) : Nat :=
  decVal (((l.dropWhile (fun c => c != 46)).tail).map (fun c => c - 48))

/-- The Transform2SG data node: the index (name) of its transform input
and its target node pointer (none = NULL). -/
structure Transform2SG where
  transform_input : String
  node : Option Nat
deriving DecidableEq, Repr

/-- The Transform2SG constructor: defines the "transform" input and sets
_node to NULL. -/
def mkTransform2SG : Transform2SG :=
  { transform_input := "transform", node := none }

/-- Transform2SG::set_node. -/
def set_node (t : Transform2SG) (n : Option Nat) : Transform2SG :=
  { t with node := n }

/-- Transform2SG::get_node. -/
def get_node (t : Transform2SG) : Option Nat := t.node

/-- Transform2SG::do_transmit_data.  The DataNodeTransmit input is a map
from input names to the transform value they carry, if any; the result is
the set_transform mutation performed (target node, transform), or none
when no mutation happens. -/
def do_transmit_data (t : Transform2SG) (input : String → Option Nat) : Option (Nat × Nat) :=
  match input t.transform_input with
  | some tf =>
    match t.node with
    | some n => some (n, tf)
    | none => none
  | none => none

/-! Helper lemmas about the event traces. -/

/-- The wait loop of join performs no status writes. -/
theorem writesForward_wait (cur st : TStatus) (obs : List TStatus) (rest : List Ev) :
    writesForward cur ((waitForFinished st obs).2 ++ rest) = writesForward cur rest := by
  induction obs generalizing st with
  | nil =>
    by_cases h : st = TStatus.S_finished
    · subst h; simp [waitForFinished, writesForward]
    · cases st <;> simp_all [waitForFinished, writesForward]
  | cons o rest2 ih =>
    by_cases h : st = TStatus.S_finished
    · subst h; simp [waitForFinished, writesForward]
    · cases st <;> simp_all [waitForFinished, writesForward]

/-- The wait loop of join keeps the lock held: its events pass the lock
discipline at any positive depth and leave the depth unchanged. -/
theorem locksOk_wait (d : Nat) (hd : 0 < d) (st : TStatus) (obs : List TStatus)
    (rest : List Ev) :
    locksOk d ((waitForFinished st obs).2 ++ rest) = locksOk d rest := by
  induction obs generalizing st with
  | nil =>
    by_cases h : st = TStatus.S_finished
    · subst h; simp [waitForFinished, locksOk, hd]
    · cases st <;> simp_all [waitForFinished, locksOk, hd]
  | cons o rest2 ih =>
    by_cases h : st = TStatus.S_finished
    · subst h; simp [waitForFinished, locksOk, hd]
    · cases st <;> simp_all [waitForFinished, locksOk, hd]

/-! Claims about the lifecycle state machine. -/

/-- Claim C1 counterexample: setup_main_thread, called on a fresh logical
thread in state New (the only intended use, bootstrapping the main
thread), writes S_running directly, moving the state from New to Running
without passing through StartCalled. -/
theorem C1_counterexample :
    (setup_main_thread initThreadState).1.status = TStatus.S_running ∧
    initThreadState.status = TStatus.S_new ∧
    writesForward TStatus.S_new (setup_main_thread initThreadState).2 = false := by
  decide

/-- Claim C1 (amended): start, join and root_func only ever write the
lifecycle status forward along New, StartCalled, Running, Finished, and
never write Running or Finished while the current status is New;
setup_main_thread is the exception, unconditionally writing Running. -/
theorem C1_forward_only (pr : ThreadPriority) (j : Bool) (osHandle osTid : Nat)
    (s : ThreadState) (obs : List TStatus) (parentObj : Nat) (w : WorkerState) :
    writesForward s.status (start pr j osHandle osTid s).2.2 = true ∧
    writesForward s.status (join s obs).2.2 = true ∧
    writesForward w.impl.status (root_func parentObj w).2.2 = true ∧
    (setup_main_thread s).1.status = TStatus.S_running := by
  refine ⟨?_, ?_, ?_, rfl⟩
  · by_cases h : s.status = TStatus.S_new ∧ s.thread = 0
    · by_cases ht : osTid = 0 <;>
        simp [start, h, ht, writesForward, stepOk, h.1, TStatus.idx]
    · simp [start, h, writesForward]
  · by_cases h : s.joinable = true ∧ s.status ≠ TStatus.S_new
    · cases hr : (waitForFinished s.status obs).1 with
      | some n =>
        simp only [join, if_pos h, hr]
        show writesForward s.status (Ev.lock :: Ev.readStatus s.status ::
          ((waitForFinished s.status obs).2 ++ [Ev.unlock])) = true
        simp [writesForward, writesForward_wait]
      | none =>
        simp only [join, if_pos h, hr]
        have hw := writesForward_wait s.status s.status obs []
        rw [List.append_nil] at hw
        simp [writesForward, hw]
    · simp [join, h, writesForward]
  · by_cases h : w.impl.status = TStatus.S_start_called
    · simp [root_func, h, writesForward, stepOk, TStatus.idx]
    · simp [root_func, h, writesForward]

/-- Claim C8 counterexample: setup_main_thread consists of a single write
of the lifecycle state performed while the mutex depth is zero, which is
neither under the lock nor the permitted unlocked fail-fast read. -/
theorem C8_counterexample :
    (setup_main_thread initThreadState).2 = [Ev.writeStatus TStatus.S_running] ∧
    locksOk 0 (setup_main_thread initThreadState).2 = false := by
  decide

/-- Claim C8 (amended): every read and write of the lifecycle state field
in start, join and root_func occurs while the mutex is held (start
performs even its duplicate-call check under the lock, so no unlocked
fail-fast read exists in this implementation); setup_main_thread writes
the state without holding the mutex. -/
theorem C8_lock_discipline (pr : ThreadPriority) (j : Bool) (osHandle osTid : Nat)
    (s : ThreadState) (obs : List TStatus) (parentObj : Nat) (w : WorkerState) :
    locksOk 0 (start pr j osHandle osTid s).2.2 = true ∧
    locksOk 0 (join s obs).2.2 = true ∧
    locksOk 0 (root_func parentObj w).2.2 = true ∧
    (setup_main_thread s).2 = [Ev.writeStatus TStatus.S_running] := by
  refine ⟨?_, ?_, ?_, rfl⟩
  · by_cases h : s.status = TStatus.S_new ∧ s.thread = 0
    · by_cases ht : osTid = 0 <;> simp [start, h, ht, locksOk]
    · simp [start, h, locksOk]
  · by_cases h : s.joinable = true ∧ s.status ≠ TStatus.S_new
    · cases hr : (waitForFinished s.status obs).1 with
      | some n =>
        simp only [join, if_pos h, hr]
        show locksOk 0 (Ev.lock :: Ev.readStatus s.status ::
          ((waitForFinished s.status obs).2 ++ [Ev.unlock])) = true
        simp [locksOk, locksOk_wait 1 (by omega)]
      | none =>
        simp only [join, if_pos h, hr]
        have hw := locksOk_wait 1 (by omega) s.status obs []
        rw [List.append_nil] at hw
        simp [locksOk, hw]
    · simp [join, h, locksOk]
  · by_cases h : w.impl.status = TStatus.S_start_called
    · simp [root_func, h, locksOk]
    · simp [root_func, h, locksOk]

/-- Claim C2: when start is called in state New with no handle assigned
and the CreateThread call fails (null handle, thread id left 0), start
returns false, the parent reference count is restored to its value before
the call, and the lifecycle state is left at StartCalled; moreover the
resulting status equals the status after any successful start, so the
failure is knowable only from the returned boolean. -/
theorem C2_start_failure (pr : ThreadPriority) (j : Bool) (s : ThreadState)
    (hNew : s.status = TStatus.S_new) (hNoHandle : s.thread = 0) :
    (start pr j 0 0 s).2.1 = false ∧
    (start pr j 0 0 s).1.parentRef = s.parentRef ∧
    (start pr j 0 0 s).1.status = TStatus.S_start_called ∧
    (∀ osHandle osTid : Nat, osTid ≠ 0 →
      (start pr j osHandle osTid s).1.status = (start pr j 0 0 s).1.status) := by
  refine ⟨?_, ?_, ?_, ?_⟩
  · simp [start, hNew, hNoHandle]
  · simp [start, hNew, hNoHandle]
  · simp [start, hNew, hNoHandle]
  · intro osHandle osTid ht
    simp [start, hNew, hNoHandle, ht]

/-- Claim C2 witness: a concrete failing start on a fresh thread object. -/
theorem C2_start_failure_witness :
    (start ThreadPriority.TP_normal true 0 0 initThreadState).2.1 = false ∧
    (start ThreadPriority.TP_normal true 0 0 initThreadState).1.parentRef =
      initThreadState.parentRef ∧
    (start ThreadPriority.TP_normal true 0 0 initThreadState).1.status =
      TStatus.S_start_called ∧
    (∀ osHandle osTid : Nat, osTid ≠ 0 →
      (start ThreadPriority.TP_normal true osHandle osTid initThreadState).1.status =
        (start ThreadPriority.TP_normal true 0 0 initThreadState).1.status) :=
  C2_start_failure ThreadPriority.TP_normal true initThreadState (by decide) (by decide)

/-- Claim C3: when start is called with the state not New or with an OS
handle already assigned, it returns false and changes nothing: the whole
state record (status, joinable flag, handle, thread id, parent reference
count) is returned unchanged. -/
theorem C3_start_noop (pr : ThreadPriority) (j : Bool) (osHandle osTid : Nat)
    (s : ThreadState) (hpre : ¬(s.status = TStatus.S_new ∧ s.thread = 0)) :
    (start pr j osHandle osTid s).1 = s ∧ (start pr j osHandle osTid s).2.1 = false := by
  simp [start, hpre]

/-- Claim C3 witness: a second start on an already-started thread changes
nothing and returns false. -/
theorem C3_start_noop_witness :
    (start ThreadPriority.TP_high false 9 9
        { status := TStatus.S_running, joinable := true, thread := 5,
          thread_id := 7, parentRef := 2 }).1 =
      { status := TStatus.S_running, joinable := true, thread := 5,
        thread_id := 7, parentRef := 2 } ∧
    (start ThreadPriority.TP_high false 9 9
        { status := TStatus.S_running, joinable := true, thread := 5,
          thread_id := 7, parentRef := 2 }).2.1 = false :=
  C3_start_noop ThreadPriority.TP_high false 9 9 _ (by decide)

/-- Claim C4: when root_func runs with the state at StartCalled, its
events happen in exactly this order: bind the thread-local slot, lock,
assert StartCalled, write Running, notify, unlock, run thread_main, lock,
assert Running, write Finished, notify, unlock, drop the reference taken
in start; it returns 0, leaves the slot bound to the parent LogicalThread,
the status Finished, and the parent reference count decremented by one.
In particular the slot is bound and the status is Running before the
threadMain event. -/
theorem C4_root_func_order (parentObj : Nat) (w : WorkerState)
    (hst : w.impl.status = TStatus.S_start_called) :
    (root_func parentObj w).2.2 =
      [Ev.bindSlot parentObj, Ev.lock, Ev.readStatus TStatus.S_start_called,
       Ev.writeStatus TStatus.S_running, Ev.notifyCv, Ev.unlock, Ev.threadMain,
       Ev.lock, Ev.readStatus TStatus.S_running, Ev.writeStatus TStatus.S_finished,
       Ev.notifyCv, Ev.unlock, Ev.refDown] ∧
    (root_func parentObj w).2.1 = 0 ∧
    (root_func parentObj w).1.slot = some parentObj ∧
    (root_func parentObj w).1.impl.status = TStatus.S_finished ∧
    (root_func parentObj w).1.impl.parentRef = w.impl.parentRef - 1 := by
  refine ⟨?_, ?_, ?_, ?_, ?_⟩ <;> simp [root_func, hst]

/-- Claim C4 witness: a concrete run of root_func from StartCalled. -/
theorem C4_root_func_order_witness :
    (root_func 3 { impl := { status := TStatus.S_start_called, joinable := true,
                             thread := 5, thread_id := 7, parentRef := 2 },
                   slot := none }).2.2 =
      [Ev.bindSlot 3, Ev.lock, Ev.readStatus TStatus.S_start_called,
       Ev.writeStatus TStatus.S_running, Ev.notifyCv, Ev.unlock, Ev.threadMain,
       Ev.lock, Ev.readStatus TStatus.S_running, Ev.writeStatus TStatus.S_finished,
       Ev.notifyCv, Ev.unlock, Ev.refDown] ∧
    (root_func 3 { impl := { status := TStatus.S_start_called, joinable := true,
                             thread := 5, thread_id := 7, parentRef := 2 },
                   slot := none }).2.1 = 0 ∧
    (root_func 3 { impl := { status := TStatus.S_start_called, joinable := true,
                             thread := 5, thread_id := 7, parentRef := 2 },
                   slot := none }).1.slot = some 3 ∧
    (root_func 3 { impl := { status := TStatus.S_start_called, joinable := true,
                             thread := 5, thread_id := 7, parentRef := 2 },
                   slot := none }).1.impl.status = TStatus.S_finished ∧
    (root_func 3 { impl := { status := TStatus.S_start_called, joinable := true,
                             thread := 5, thread_id := 7, parentRef := 2 },
                   slot := none }).1.impl.parentRef =
      ({ status := TStatus.S_start_called, joinable := true,
         thread := 5, thread_id := 7, parentRef := 2 } : ThreadState).parentRef - 1 :=
  C4_root_func_order 3 _ (by decide)

/-- Characterization of the wait loop: it reports n waits exactly when the
n-th observed status (counting the initial read as observation 0) is
S_finished and no earlier observation is. -/
theorem waitForFinished_some (st : TStatus) (obs : List TStatus) (n : Nat)
    (h : (waitForFinished st obs).1 = some n) :
    (st :: obs).getD n TStatus.S_new = TStatus.S_finished ∧
    ∀ k, k < n → (st :: obs).getD k TStatus.S_new ≠ TStatus.S_finished := by
  induction obs generalizing st n with
  | nil =>
    by_cases hf : st = TStatus.S_finished
    · subst hf
      simp [waitForFinished] at h
      subst h
      exact ⟨rfl, by omega⟩
    · cases st <;> simp_all [waitForFinished]
  | cons o rest ih =>
    by_cases hf : st = TStatus.S_finished
    · subst hf
      simp [waitForFinished] at h
      subst h
      exact ⟨rfl, by omega⟩
    · have hstep : (waitForFinished st (o :: rest)).1 =
          (waitForFinished o rest).1.map Nat.succ := by
        cases st <;> simp_all [waitForFinished]
      rw [hstep] at h
      rcases Option.map_eq_some'.mp h with ⟨m, hm, hn⟩
      subst hn
      rcases ih o m hm with ⟨h1, h2⟩
      refine ⟨by simpa using h1, ?_⟩
      intro k hk
      match k with
      | 0 => simpa using hf
      | j + 1 =>
        have : j < m := by omega
        simpa using h2 j this

/-- Claim C5: for a joinable thread not in state New, join returns exactly
when the lifecycle state is Finished: already Finished means zero waits,
otherwise it never completes with zero waits and completing after n waits
means the n-th observation is the first Finished one; join never mutates
the state.  On a non-joinable or never-started thread the precondition
assertion fails and join returns immediately, with no wait event and no
state change. -/
theorem C5_join (s : ThreadState) (obs : List TStatus) :
    (join s obs).1 = s ∧
    (s.joinable = true → s.status = TStatus.S_finished →
      (join s obs).2.1 = JoinOutcome.completed 0) ∧
    (s.joinable = true → s.status ≠ TStatus.S_new →
      ∀ n, (join s obs).2.1 = JoinOutcome.completed n →
        (s.status :: obs).getD n TStatus.S_new = TStatus.S_finished ∧
        ∀ k, k < n → (s.status :: obs).getD k TStatus.S_new ≠ TStatus.S_finished) ∧
    (s.joinable = true → s.status ≠ TStatus.S_new → s.status ≠ TStatus.S_finished →
      (join s obs).2.1 ≠ JoinOutcome.completed 0) ∧
    (¬(s.joinable = true ∧ s.status ≠ TStatus.S_new) →
      (join s obs).2.1 = JoinOutcome.assertFailed ∧
      Ev.waitCv ∉ (join s obs).2.2) := by
  refine ⟨?_, ?_, ?_, ?_, ?_⟩
  · by_cases h : s.joinable = true ∧ s.status ≠ TStatus.S_new
    · cases hr : (waitForFinished s.status obs).1 <;> simp [join, h, hr]
    · simp [join, h]
  · intro hj hf
    have h : s.joinable = true ∧ s.status ≠ TStatus.S_new := by
      rw [hf]; exact ⟨hj, by simp⟩
    have hr : (waitForFinished s.status obs).1 = some 0 := by
      rw [hf]; cases obs <;> simp [waitForFinished]
    simp [join, h, hr]
  · intro hj hne n hcomp
    have h : s.joinable = true ∧ s.status ≠ TStatus.S_new := ⟨hj, hne⟩
    have hr : (waitForFinished s.status obs).1 = some n := by
      cases hr : (waitForFinished s.status obs).1 with
      | some m => simp [join, h, hr] at hcomp; simp [hcomp]
      | none => simp [join, h, hr] at hcomp
    exact waitForFinished_some s.status obs n hr
  · intro hj hne hnf hcomp
    have h : s.joinable = true ∧ s.status ≠ TStatus.S_new := ⟨hj, hne⟩
    have hr : (waitForFinished s.status obs).1 = some 0 := by
      cases hr : (waitForFinished s.status obs).1 with
      | some m => simp [join, h, hr] at hcomp; simp [hcomp]
      | none => simp [join, h, hr] at hcomp
    have := (waitForFinished_some s.status obs 0 hr).1
    simp at this
    exact hnf this
  · intro h
    constructor
    · simp [join, h]
    · simp [join, h]

/-- Claim C5 witness: a joinable running thread whose observations reach
Finished after two waits, applied to the completion characterization. -/
theorem C5_join_witness :
    ((join { status := TStatus.S_running, joinable := true, thread := 5,
             thread_id := 7, parentRef := 2 }
        [TStatus.S_running, TStatus.S_finished]).1 =
      { status := TStatus.S_running, joinable := true, thread := 5,
        thread_id := 7, parentRef := 2 }) ∧
    ((TStatus.S_running :: [TStatus.S_running, TStatus.S_finished]).getD 2 TStatus.S_new =
      TStatus.S_finished ∧
    ∀ k, k < 2 →
      (TStatus.S_running :: [TStatus.S_running, TStatus.S_finished]).getD k TStatus.S_new ≠
        TStatus.S_finished) := by
  refine ⟨(C5_join _ _).1, ?_⟩
  exact (C5_join { status := TStatus.S_running, joinable := true, thread := 5,
                   thread_id := 7, parentRef := 2 }
    [TStatus.S_running, TStatus.S_finished]).2.2.1 (by decide) (by decide) 2 (by decide)

/-! Claims about the current-thread registry. -/

/-- Claim C6: get_current_thread with an empty slot test-and-sets the
MainThreadKnownFlag.  If the flag was unset it binds the slot to the main
LogicalThread and returns it, and a second call from the same context
returns the identical object via the fast path, with no further
test-and-set.  If the flag was already set and the slot still empty, the
fatal UnregisteredThread assertion fires and no valid identity is
returned. -/
theorem C6_get_current_thread (mainT : Nat) (r : Registry) (hslot : r.slot = none) :
    (r.mainKnown = false →
      get_current_thread mainT r =
        ({ slot := some mainT, mainKnown := true }, some mainT,
         [RegEv.readSlot, RegEv.readSlot, RegEv.testAndSet false, RegEv.writeSlot mainT]) ∧
      get_current_thread mainT { slot := some mainT, mainKnown := true } =
        ({ slot := some mainT, mainKnown := true }, some mainT, [RegEv.readSlot])) ∧
    (r.mainKnown = true →
      (get_current_thread mainT r).2.1 = none ∧
      RegEv.assertUnregistered ∈ (get_current_thread mainT r).2.2 ∧
      (get_current_thread mainT r).1 = r) := by
  obtain ⟨slot, known⟩ := r
  cases hslot
  constructor
  · intro hk; cases hk
    exact ⟨rfl, rfl⟩
  · intro hk; cases hk
    refine ⟨rfl, ?_, rfl⟩
    simp [get_current_thread, init_current_thread]

/-- Claim C6 witness: the lazy bootstrap on a fresh registry, and the
unregistered-thread failure on an empty slot with the flag already set. -/
theorem C6_get_current_thread_witness :
    (get_current_thread 7 { slot := none, mainKnown := false } =
      ({ slot := some 7, mainKnown := true }, some 7,
       [RegEv.readSlot, RegEv.readSlot, RegEv.testAndSet false, RegEv.writeSlot 7]) ∧
     get_current_thread 7 { slot := some 7, mainKnown := true } =
      ({ slot := some 7, mainKnown := true }, some 7, [RegEv.readSlot])) ∧
    ((get_current_thread 7 { slot := none, mainKnown := true }).2.1 = none ∧
     RegEv.assertUnregistered ∈ (get_current_thread 7 { slot := none, mainKnown := true }).2.2 ∧
     (get_current_thread 7 { slot := none, mainKnown := true }).1 =
       { slot := none, mainKnown := true }) :=
  ⟨(C6_get_current_thread 7 { slot := none, mainKnown := false } rfl).1 rfl,
   (C6_get_current_thread 7 { slot := none, mainKnown := true } rfl).2 rfl⟩

/-- Claim C7: bind_thread always leaves the slot holding the given
thread, overwriting any prior binding; it invokes the test-and-set on the
MainThreadKnownFlag exactly when the slot was empty and the given thread
is the designated main thread, and the flag afterwards is the old flag
joined with that condition. -/
theorem C7_bind_thread (mainT t : Nat) (r : Registry) :
    (bind_thread mainT t r).1.slot = some t ∧
    ((bind_thread mainT t r).2.1 = true ↔ (r.slot = none ∧ t = mainT)) ∧
    (bind_thread mainT t r).1.mainKnown =
      (r.mainKnown || decide (r.slot = none ∧ t = mainT)) := by
  by_cases h : r.slot = none ∧ t = mainT <;> simp [bind_thread, h]

/-- Claim C7 witness: rebinding an already-bound slot to a non-main
thread leaves the flag alone and overwrites the slot. -/
theorem C7_bind_thread_witness :
    (bind_thread 7 3 { slot := some 7, mainKnown := true }).1.slot = some 3 ∧
    ((bind_thread 7 3 { slot := some 7, mainKnown := true }).2.1 = true ↔
      (({ slot := some 7, mainKnown := true } : Registry).slot = none ∧ 3 = 7)) ∧
    (bind_thread 7 3 { slot := some 7, mainKnown := true }).1.mainKnown =
      (true || decide (({ slot := some 7, mainKnown := true } : Registry).slot = none ∧ 3 = 7)) :=
  C7_bind_thread 7 3 { slot := some 7, mainKnown := true }

/-! Helper lemmas for the unique-id string. -/

/-- Appending one digit multiplies the value by ten and adds the digit. -/
theorem decVal_append_digit (l : List Nat) (d : Nat) :
    decVal (l ++ [d]) = decVal l * 10 + d := by
  simp [decVal, List.foldl_append]

/-- The digit rendering of a positive number decodes back to it. -/
theorem decVal_decDigitsAux (n : Nat) : decVal (decDigitsAux n) = n := by
  induction n using Nat.strong_induction_on with
  | _ n ih =>
    match n with
    | 0 => simp [decDigitsAux, decVal]
    | m + 1 =>
      rw [decDigitsAux, decVal_append_digit,
        ih ((m + 1) / 10) (Nat.div_lt_self (Nat.succ_pos m) (by omega))]
      omega

/-- The decimal rendering of any number decodes back to it. -/
theorem decVal_decRepr (n : Nat) : decVal (decRepr n) = n := by
  by_cases h : n = 0
  · subst h; simp [decRepr, decVal]
  · simp [decRepr, h, decVal_decDigitsAux]

/-- Every rendered digit is below ten. -/
theorem decDigitsAux_lt_ten (n : Nat) : ∀ d ∈ decDigitsAux n, d < 10 := by
  induction n using Nat.strong_induction_on with
  | _ n ih =>
    match n with
    | 0 => simp [decDigitsAux]
    | m + 1 =>
      rw [decDigitsAux]
      intro d hd
      rcases List.mem_append.mp hd with h | h
      · exact ih ((m + 1) / 10) (Nat.div_lt_self (Nat.succ_pos m) (by omega)) d h
      · simp at h; omega

/-- Every digit of decRepr is below ten. -/
theorem decRepr_lt_ten (n : Nat) : ∀ d ∈ decRepr n, d < 10 := by
  by_cases h : n = 0
  · subst h; simp [decRepr]
  · simpa [decRepr, h] using decDigitsAux_lt_ten n

/-- Subtracting the ASCII offset undoes adding it. -/
theorem map_codes_decode (l : List Nat) :
    (l.map (fun d => 48 + d)).map (fun c => c - 48) = l := by
  induction l with
  | nil => simp
  | cons a l ih => simp [ih]

/-- dropWhile over a block of non-dot codes stops at the dot. -/
theorem dropWhile_not_dot (xs ys : List Nat) (h : ∀ a ∈ xs, a ≠ 46) :
    (xs ++ 46 :: ys).dropWhile (fun c => c != 46) = 46 :: ys := by
  induction xs with
  | nil => simp [List.dropWhile]
  | cons a l ih =>
    have ha : a ≠ 46 := h a (List.mem_cons_self a l)
    have : (a != 46) = true := by simpa using ha
    simp only [List.cons_append, List.dropWhile_cons, this, if_true]
    exact ih fun b hb => h b (List.mem_cons_of_mem a hb)

/-- The thread-id component decoded from the unique-id string is the
stored OS thread id. -/
theorem tidOfUid_get_unique_id (pid : Nat) (s : ThreadState) :
    tidOfUid (get_unique_id pid s).2 = s.thread_id := by
  have hno : ∀ a ∈ decCodes pid, a ≠ 46 := by
    intro a ha
    rcases List.mem_map.mp ha with ⟨d, hd, hda⟩
    have := decRepr_lt_ten pid d hd
    omega
  simp only [get_unique_id, tidOfUid]
  rw [dropWhile_not_dot _ _ hno]
  simp only [List.tail_cons]
  show decVal (((decRepr s.thread_id).map (fun d => 48 + d)).map (fun c => c - 48)) =
    s.thread_id
  rw [map_codes_decode, decVal_decRepr]

/-- Claim C9: get_unique_id modifies no state and returns the decimal
codes of the process id, a dot, and the decimal codes of the stored OS
thread id; the string depends only on those two numbers, so repeated
calls agree, and two started threads of one process with distinct OS
thread ids yield different strings. -/
theorem C9_get_unique_id (pid : Nat) (s1 s2 : ThreadState)
    (h : s1.thread_id ≠ s2.thread_id) :
    (get_unique_id pid s1).1 = s1 ∧
    (get_unique_id pid s1).2 = decCodes pid ++ 46 :: decCodes s1.thread_id ∧
    (∀ s3 : ThreadState, s3.thread_id = s1.thread_id →
      (get_unique_id pid s3).2 = (get_unique_id pid s1).2) ∧
    (get_unique_id pid s1).2 ≠ (get_unique_id pid s2).2 := by
  refine ⟨rfl, rfl, ?_, ?_⟩
  · intro s3 h3
    simp [get_unique_id, h3]
  · intro heq
    have := congrArg tidOfUid heq
    rw [tidOfUid_get_unique_id, tidOfUid_get_unique_id] at this
    exact h this

/-- Claim C9 witness: two started threads with OS thread ids 15 and 7 in
process 4. -/
theorem C9_get_unique_id_witness :
    (get_unique_id 4 { status := TStatus.S_running, joinable := true, thread := 5,
                       thread_id := 15, parentRef := 2 }).1 =
      { status := TStatus.S_running, joinable := true, thread := 5,
        thread_id := 15, parentRef := 2 } ∧
    (get_unique_id 4 { status := TStatus.S_running, joinable := true, thread := 5,
                       thread_id := 15, parentRef := 2 }).2 =
      decCodes 4 ++ 46 :: decCodes
        ({ status := TStatus.S_running, joinable := true, thread := 5,
           thread_id := 15, parentRef := 2 } : ThreadState).thread_id ∧
    (∀ s3 : ThreadState, s3.thread_id =
        ({ status := TStatus.S_running, joinable := true, thread := 5,
           thread_id := 15, parentRef := 2 } : ThreadState).thread_id →
      (get_unique_id 4 s3).2 =
        (get_unique_id 4 { status := TStatus.S_running, joinable := true, thread := 5,
                           thread_id := 15, parentRef := 2 }).2) ∧
    (get_unique_id 4 { status := TStatus.S_running, joinable := true, thread := 5,
                       thread_id := 15, parentRef := 2 }).2 ≠
      (get_unique_id 4 { status := TStatus.S_finished, joinable := true, thread := 6,
                         thread_id := 7, parentRef := 1 }).2 :=
  C9_get_unique_id 4 _ _ (by decide)

/-! Claim about the Transform2SG data node. -/

/-- Claim C10: do_transmit_data performs the set_transform mutation,
on the node set via set_node and with the transform carried by the
"transform" input, exactly when that input carries data and the node is
set; get_node returns the node most recently passed to set_node, and the
constructor leaves it NULL while defining the "transform" input. -/
theorem C10_transform2sg (t : Transform2SG) (input : String → Option Nat)
    (n tf : Nat) (no : Option Nat) :
    (do_transmit_data t input = some (n, tf) ↔
      (input t.transform_input = some tf ∧ t.node = some n)) ∧
    get_node (set_node t no) = no ∧
    get_node mkTransform2SG = none ∧
    mkTransform2SG.transform_input = "transform" := by
  refine ⟨?_, rfl, rfl, rfl⟩
  cases hin : input t.transform_input with
  | none => simp [do_transmit_data, hin]
  | some v =>
    cases hn : t.node with
    | none => simp [do_transmit_data, hin, hn]
    | some m =>
      simp only [do_transmit_data, hin, hn, Option.some.injEq, Prod.mk.injEq]
      exact and_comm

/-- Claim C10 witness: a node and input carrying a transform produce
exactly the corresponding set_transform call. -/
theorem C10_transform2sg_witness :
    (do_transmit_data { transform_input := "transform", node := some 4 }
        (fun nm => if nm = "transform" then some 9 else none) = some (4, 9) ↔
      ((fun nm => if nm = "transform" then some 9 else none)
          ({ transform_input := "transform", node := some 4 } : Transform2SG).transform_input =
        some 9 ∧
       ({ transform_input := "transform", node := some 4 } : Transform2SG).node = some 4)) ∧
    get_node (set_node { transform_input := "transform", node := some 4 } (some 6)) = some 6 ∧
    get_node mkTransform2SG = none ∧
    mkTransform2SG.transform_input = "transform" :=
  C10_transform2sg { transform_input := "transform", node := some 4 }
    (fun nm => if nm = "transform" then some 9 else none) 4 9 (some 6)
